import Mathlib

/-!
Shallow embedding of the log.c logging facility (src/log.h, src/log.c).

Levels are C enum integers (log.h lines 42-49), the logger state is the
static struct L (log.c lines 61-67) together with the one-shot flag
has_init_from_env (log.c line 76).  Wall-clock timestamps produced by
strftime are passed in as opaque string parameters; the caller-supplied
lock callback and the FILE pointer are modelled by their presence
(installed or not), since both are external collaborators the facility
only dispatches to.  Internal error logging (the log_error macro calls
made inside setters) is modelled as a list of (level, message) pairs
recording the log_log invocations a function performs.
-/

namespace LogC

/-! ### Level constants (src/log.h lines 42-49) and BAD_LEVEL (src/log.c line 52) -/

def LOG_TRACE : Int := -1

def LOG_DEBUG : Int := 0

def LOG_INFO : Int := 1

def LOG_WARN : Int := 2

def LOG_ERROR : Int := 3

def LOG_FATAL : Int := 4

def BAD_LEVEL : Int := 666

/-- log_is_level (log.c lines 167-170): level >= LOG_TRACE && level <= LOG_FATAL. -/
def log_is_level (level : Int) : Bool :=
  decide (LOG_TRACE ≤ level) && decide (level ≤ LOG_FATAL)

/-- level_names (log.c lines 69-71). -/
def level_names : List String :=
  ["TRACE", "DEBUG", "INFO", "WARN", "ERROR", "FATAL"]

/-- log_level_to_name (log.c lines 202-209): NULL (none) for an invalid
level, otherwise level_names[level - LOG_TRACE]. -/
def log_level_to_name (level : Int) : Option String :=
  if log_is_level level = false then none
  else level_names.get? (level - LOG_TRACE).toNat

/-- int_to_string (log.c lines 136-141): sprintf with %d, decimal rendering. -/
def int_to_string (x : Int) : String :=
  toString x

/-- The sequence of levels the C for loops iterate over:
for (level = LOG_TRACE; level <= LOG_FATAL; level++). -/
def levels_ascending : List Int :=
  (List.range ((LOG_FATAL - LOG_TRACE).toNat + 1)).map fun i => LOG_TRACE + (i : Int)

/-- num_levels as computed by log_level_strings (log.c line 261):
LOG_FATAL - LOG_TRACE.  This is the number of (char *) slots malloc
reserves for the level_strings array. -/
def num_levels : Int := LOG_FATAL - LOG_TRACE

/-- The strings the initialization loop of log_level_strings stores
(log.c lines 265-267): level_strings[level - LOG_TRACE] = int_to_string(level)
for level = LOG_TRACE .. LOG_FATAL, i.e. indices 0 through 5. -/
def level_strings_written : List String :=
  levels_ascending.map int_to_string

/-- log_level_to_string (log.c lines 288-295), de-facto value semantics:
NULL (none) for an invalid level, otherwise the string the loop stored at
index level - LOG_TRACE (reads return the value the loop wrote there). -/
def log_level_to_string (level : Int) : Option String :=
  if log_is_level level = false then none
  else level_strings_written.get? (level - LOG_TRACE).toNat

/-- log_level_to_string restricted to the malloc-ed bound: the array
log_level_strings returns has only num_levels = LOG_FATAL - LOG_TRACE
slots (log.c lines 261-263), so Option-returning indexing past that bound
yields none.  Used to examine whether the index level - LOG_TRACE stays
inside the allocation. -/
def log_level_to_string_alloc (level : Int) : Option String :=
  if log_is_level level = false then none
  else (level_strings_written.take num_levels.toNat).get? (level - LOG_TRACE).toNat

/-- The upper-casing loop of log_name_to_level (log.c lines 227-232):
toupper applied in place to every character of a copy of the input. -/
def upcase (s : String) : String :=
  String.mk (s.data.map Char.toUpper)

/-- log_name_to_level (log.c lines 221-244).  Returns the first level in
TRACE..FATAL whose canonical name equals the upper-cased input, else
BAD_LEVEL; on failure it additionally calls
log_error("Level name %s not found", upcased), recorded as a (level,
message) pair in the second component. -/
def log_name_to_level (name : String) : Int × List (Int × String) :=
  let upcased := upcase name
  match levels_ascending.find? (fun level => log_level_to_name level == some upcased) with
  | some level => (level, [])
  | none => (BAD_LEVEL, [(LOG_ERROR, "Level name " ++ upcased ++ " not found")])

/-- The static struct L (log.c lines 61-67).  The FILE pointer fp and the
lock callback are modelled by whether they are installed; udata is opaque
and only ever handed back to the callback, so it is omitted. -/
structure LoggerState where
  level : Int
  quiet : Bool
  hasFp : Bool
  hasLock : Bool
deriving DecidableEq, Repr

/-- log_set_level (log.c lines 359-366): an invalid level is rejected with
log_error("Tried to set bad log level %d", level) and the state is left
unchanged; a valid level replaces L.level. -/
def log_set_level (st : LoggerState) (level : Int) : LoggerState × List (Int × String) :=
  if log_is_level level = false then
    (st, [(LOG_ERROR, "Tried to set bad log level " ++ int_to_string level)])
  else
    ({ st with level := level }, [])

/-- log_set_level_by_name (log.c lines 328-334). -/
def log_set_level_by_name (st : LoggerState) (name : String) :
    LoggerState × Int × List (Int × String) :=
  let r := log_name_to_level name
  if r.1 ≠ BAD_LEVEL then
    let s := log_set_level st r.1
    (s.1, r.1, r.2 ++ s.2)
  else
    (st, r.1, r.2)

/-- log_set_level_from_string (log.c lines 415-432): empty input is
rejected with log_error("Received empty string") before any matching; then
the numeric strings of the levels are tried in ascending order; on no
match the input falls through to name matching. -/
def log_set_level_from_string (st : LoggerState) (string : String) :
    LoggerState × Int × List (Int × String) :=
  if string.length == 0 then
    (st, BAD_LEVEL, [(LOG_ERROR, "Received empty string")])
  else
    match levels_ascending.find? (fun level => log_level_to_string level == some string) with
    | some level =>
      let s := log_set_level st level
      (s.1, level, s.2)
    | none => log_set_level_by_name st string

/-- The logger state together with the one-shot flag has_init_from_env
(log.c line 76). -/
structure GlobalState where
  L : LoggerState
  has_init_from_env : Bool
deriving DecidableEq, Repr

/-- log_init_from_env (log.c lines 449-462).  env is the value of the
LOG_LEVEL environment variable at the moment of the call (none when
unset).  Returns the new global state and the internal log_log calls
made. -/
def log_init_from_env (env : Option String) (g : GlobalState) :
    GlobalState × List (Int × String) :=
  if g.has_init_from_env then
    (g, [])
  else
    match env with
    | none => ({ L := g.L, has_init_from_env := true }, [])
    | some value =>
      let r := log_set_level_from_string g.L value
      ({ L := r.1, has_init_from_env := true }, r.2.2)

/-- One formatted sink line of log_log: the strftime timestamp, the result
of log_level_to_name (NULL for an invalid level), the call-site file and
line, and the formatted user message. -/
structure SinkLine where
  ts : String
  name : Option String
  src : String
  srcLine : Int
  msg : String
deriving DecidableEq, Repr

/-- The observable side effects of one log_log call: the arguments passed
to the lock callback (true on acquire, false on release), the line written
to stderr (none when suppressed), and the line written to the file sink
(none when no file handle is installed). -/
structure EmitEffects where
  lockCalls : List Bool
  console : Option SinkLine
  toFile : Option SinkLine
deriving DecidableEq, Repr

/-- log_log (log.c lines 476-528).  tshort and tlong are the strftime
renderings of the captured wall-clock time for the console and file
formats.  Below the threshold the function returns at once: no lock
callback invocation, no output, state untouched.  Otherwise the lock
callback (when installed) is invoked around writing to stderr (unless
quiet) and to the file sink (when installed); the state is never
mutated. -/
def log_log (tshort tlong : String) (st : LoggerState) (level : Int)
    (file : String) (line : Int) (msg : String) : LoggerState × EmitEffects :=
  if level < st.level then
    (st, { lockCalls := [], console := none, toFile := none })
  else
    (st,
      { lockCalls := if st.hasLock then [true, false] else [],
        console :=
          if st.quiet then none
          else some { ts := tshort, name := log_level_to_name level,
                      src := file, srcLine := line, msg := msg },
        toFile :=
          if st.hasFp then
            some { ts := tlong, name := log_level_to_name level,
                   src := file, srcLine := line, msg := msg }
          else none })

/-- The zero-initialized static struct L at process start (log.c lines
61-67; static storage duration zero-initializes every field): level = 0,
quiet = false, no file handle, no lock callback. -/
def initial_L : LoggerState :=
  { level := 0, quiet := false, hasFp := false, hasLock := false }

/-- Initial global state: zero-initialized L, has_init_from_env = 0. -/
def initial_global : GlobalState :=
  { L := initial_L, has_init_from_env := false }

end LogC

namespace LogC

/-! ### Claim theorems -/

/-- C1: an emission call log_log(level, file, line, fmt, ...) with level
strictly below the current threshold returns immediately with no side
effects at all (no lock callback invocation, no console line, no file
line, state unchanged); with level at or above the threshold (including
exactly at it) output is produced on every enabled sink: on the console
exactly when quiet is false, on the file sink exactly when a file handle
is installed, and the lock callback is invoked (acquire then release) when
installed. -/
theorem C1_threshold_filtering (tshort tlong : String) (st : LoggerState)
    (level : Int) (file : String) (line : Int) (msg : String) :
    (level < st.level →
      log_log tshort tlong st level file line msg =
        (st, { lockCalls := [], console := none, toFile := none })) ∧
    (st.level ≤ level →
      (log_log tshort tlong st level file line msg).1 = st ∧
      (log_log tshort tlong st level file line msg).2.console.isSome = !st.quiet ∧
      (log_log tshort tlong st level file line msg).2.toFile.isSome = st.hasFp ∧
      (log_log tshort tlong st level file line msg).2.lockCalls =
        (if st.hasLock then [true, false] else [])) := by
  constructor
  · intro h
    simp [log_log, h]
  · intro h
    have h2 : ¬ level < st.level := not_lt.mpr h
    cases hq : st.quiet <;> cases hf : st.hasFp <;>
      simp [log_log, h2, hq, hf]

/-- Witness for C1 at concrete inputs: in the initial state (threshold
DEBUG) a TRACE emission is dropped with no effects, and a WARN emission
produces console output. -/
theorem C1_threshold_filtering_witness :
    log_log "t" "T" initial_L LOG_TRACE "a.c" (1 : Int) "m" =
      (initial_L, { lockCalls := [], console := none, toFile := none }) ∧
    (log_log "t" "T" initial_L LOG_WARN "a.c" (1 : Int) "m").2.console.isSome =
      !initial_L.quiet :=
  ⟨(C1_threshold_filtering "t" "T" initial_L LOG_TRACE "a.c" 1 "m").1 (by decide),
   ((C1_threshold_filtering "t" "T" initial_L LOG_WARN "a.c" 1 "m").2 (by decide)).2.1⟩

/-- C2: log_set_level_from_string tries a numeric match first across all
levels, then falls back to case-insensitive name matching: for every
valid level, the decimal string of its integer value sets the threshold
to that level and returns it; and the inputs "0", "debug" and "DEBUG" all
set the same threshold, LOG_DEBUG. -/
theorem C2_numeric_then_name (st : LoggerState) (lv : Int)
    (h : log_is_level lv = true) :
    ((log_set_level_from_string st (int_to_string lv)).1.level = lv ∧
      (log_set_level_from_string st (int_to_string lv)).2.1 = lv) ∧
    (log_set_level_from_string st "0").1.level = LOG_DEBUG ∧
    (log_set_level_from_string st "debug").1.level = LOG_DEBUG ∧
    (log_set_level_from_string st "DEBUG").1.level = LOG_DEBUG := by
  refine ⟨?_, rfl, rfl, rfl⟩
  simp only [log_is_level, Bool.and_eq_true, decide_eq_true_eq] at h
  obtain ⟨h1, h2⟩ := h
  have h1x : (-1 : Int) ≤ lv := h1
  have h2x : lv ≤ (4 : Int) := h2
  interval_cases lv <;> exact ⟨rfl, rfl⟩

/-- Witness for C2 at LOG_FATAL: the string "4" sets the threshold to 4. -/
theorem C2_numeric_then_name_witness :
    log_is_level LOG_FATAL = true ∧
    (log_set_level_from_string initial_L (int_to_string LOG_FATAL)).1.level = LOG_FATAL :=
  ⟨by decide, ((C2_numeric_then_name initial_L LOG_FATAL (by decide)).1).1⟩

/-- C3: the allocation in log_level_strings reserves num_levels =
LOG_FATAL - LOG_TRACE = 5 pointer slots, but the initialization loop
stores 6 strings (one per level, indices 0 through 5), so for LOG_FATAL
the index level - LOG_TRACE = 5 is NOT within the allocated bound and
Option-returning indexing against the allocation yields none there, while
every other valid level stays in bounds.  This contradicts the claim that
the array contains one entry per level and that the lookup never goes out
of range: the allocation is one slot short of the loop that fills it. -/
theorem C3_level_strings_alloc_off_by_one :
    num_levels = 5 ∧
    level_strings_written.length = 6 ∧
    log_is_level LOG_FATAL = true ∧
    ¬ (LOG_FATAL - LOG_TRACE).toNat < num_levels.toNat ∧
    log_level_to_string_alloc LOG_FATAL = none ∧
    log_level_to_string_alloc LOG_ERROR = some "3" := by decide

/-- C4: round-trip: for every valid level, converting it to its canonical
name and back through log_name_to_level returns the same level; and name
resolution is case-insensitive: "debug", "DEBUG" and "DeBuG" all resolve
to the same level. -/
theorem C4_round_trip (lv : Int) (n : String)
    (h : log_level_to_name lv = some n) :
    (log_name_to_level n).1 = lv ∧
    (log_name_to_level "debug").1 = (log_name_to_level "DEBUG").1 ∧
    (log_name_to_level "DEBUG").1 = (log_name_to_level "DeBuG").1 := by
  have hv : log_is_level lv = true := by
    by_contra hc
    have hf : log_is_level lv = false := by
      cases hx : log_is_level lv
      · rfl
      · exact absurd hx hc
    rw [log_level_to_name, if_pos hf] at h
    exact Option.noConfusion h
  simp only [log_is_level, Bool.and_eq_true, decide_eq_true_eq] at hv
  obtain ⟨h1, h2⟩ := hv
  have h1x : (-1 : Int) ≤ lv := h1
  have h2x : lv ≤ (4 : Int) := h2
  interval_cases lv <;> injection h with h3 <;> subst h3 <;>
    exact ⟨by decide, by decide, by decide⟩

/-- Witness for C4 at LOG_DEBUG and the name DEBUG. -/
theorem C4_round_trip_witness :
    log_level_to_name LOG_DEBUG = some "DEBUG" ∧
    (log_name_to_level "DEBUG").1 = LOG_DEBUG :=
  ⟨rfl, (C4_round_trip LOG_DEBUG "DEBUG" rfl).1⟩

/-- C5: for every integer outside the valid level range, log_set_level
signals an error (one internal ERROR-level log call naming the bad level)
and leaves the whole logger state, in particular the threshold, exactly
as it was. -/
theorem C5_set_level_invalid (st : LoggerState) (lv : Int)
    (h : log_is_level lv = false) :
    log_set_level st lv =
      (st, [(LOG_ERROR, "Tried to set bad log level " ++ int_to_string lv)]) := by
  simp [log_set_level, h]

/-- Witness for C5 at the invalid level 999. -/
theorem C5_set_level_invalid_witness :
    log_is_level 999 = false ∧ (log_set_level initial_L 999).1 = initial_L :=
  ⟨by decide, by rw [C5_set_level_invalid initial_L 999 (by decide)]⟩

/-- C6: log_init_from_env is idempotent via a one-way latch: when the
flag is still clear, the first call applies the environment value (when
present) through log_set_level_from_string and sets the flag; a second
call, with the environment changed arbitrarily, is a pure no-op (state
returned unchanged, no internal log calls), so after two calls the
threshold is the one established by the first call only. -/
theorem C6_init_from_env_one_way_latch (env1 env2 : Option String) (g : GlobalState)
    (h : g.has_init_from_env = false) :
    (∀ v, env1 = some v →
      (log_init_from_env env1 g).1.L = (log_set_level_from_string g.L v).1) ∧
    (env1 = none → (log_init_from_env env1 g).1.L = g.L) ∧
    (log_init_from_env env1 g).1.has_init_from_env = true ∧
    log_init_from_env env2 (log_init_from_env env1 g).1 =
      ((log_init_from_env env1 g).1, []) := by
  cases env1 <;> simp [log_init_from_env, h]

/-- Witness for C6: starting from the initial state, a first call with
LOG_LEVEL = "3" followed by a second call with LOG_LEVEL = "0" leaves the
state of the first call untouched. -/
theorem C6_init_from_env_one_way_latch_witness :
    log_init_from_env (some "0") (log_init_from_env (some "3") initial_global).1 =
      ((log_init_from_env (some "3") initial_global).1, []) :=
  (C6_init_from_env_one_way_latch (some "3") (some "0") initial_global rfl).2.2.2

/-- C7: the quiet flag affects only the console sink: for any state and
any emission, the file-sink output with quiet set is exactly the output
with quiet clear, the console output with quiet set is always none, and
with quiet clear the console line is produced exactly when the level
passes the threshold. -/
theorem C7_quiet_only_console (tshort tlong : String) (st : LoggerState)
    (level : Int) (file : String) (line : Int) (msg : String) :
    (log_log tshort tlong { st with quiet := true } level file line msg).2.toFile =
      (log_log tshort tlong { st with quiet := false } level file line msg).2.toFile ∧
    (log_log tshort tlong { st with quiet := true } level file line msg).2.console = none ∧
    (log_log tshort tlong { st with quiet := false } level file line msg).2.console =
      (if level < st.level then none
       else some { ts := tshort, name := log_level_to_name level, src := file,
                   srcLine := line, msg := msg }) := by
  by_cases h : level < st.level <;> simp [log_log, h]

/-- C8: the empty string passed to log_set_level_from_string is rejected
up front - the function returns BAD_LEVEL after a single internal
ERROR-level log call, without reaching the numeric loop or name
resolution, and the logger state is returned unchanged. -/
theorem C8_empty_string_rejected (st : LoggerState) :
    log_set_level_from_string st "" =
      (st, BAD_LEVEL, [(LOG_ERROR, "Received empty string")]) := rfl

/-- C9: when log_name_to_level is given a name whose upper-casing matches
no canonical level name, it returns BAD_LEVEL and makes exactly one
internal log_log call, at level LOG_ERROR with a message naming the bad
input; that level is valid, so the nested emission takes the ordinary
output path of log_log (which performs no name resolution), bounding the
recursion at depth one. -/
theorem C9_unknown_name_bounded_error (name : String)
    (h : ∀ lv ∈ levels_ascending, ¬ log_level_to_name lv = some (upcase name)) :
    log_name_to_level name =
      (BAD_LEVEL, [(LOG_ERROR, "Level name " ++ upcase name ++ " not found")]) ∧
    (log_name_to_level name).2.length = 1 ∧
    (∀ e ∈ (log_name_to_level name).2, e.1 = LOG_ERROR ∧ log_is_level e.1 = true) := by
  have hf : levels_ascending.find?
      (fun lv => log_level_to_name lv == some (upcase name)) = none := by
    rw [List.find?_eq_none]
    intro x hx
    simpa using h x hx
  have heq : log_name_to_level name =
      (BAD_LEVEL, [(LOG_ERROR, "Level name " ++ upcase name ++ " not found")]) := by
    simp [log_name_to_level, hf]
  refine ⟨heq, ?_, ?_⟩
  · rw [heq]
    rfl
  · intro e he
    rw [heq] at he
    simp only [List.mem_singleton] at he
    subst he
    exact ⟨rfl, rfl⟩

/-- Witness for C9 at the unknown name "bogus". -/
theorem C9_unknown_name_bounded_error_witness :
    log_name_to_level "bogus" =
      (BAD_LEVEL, [(LOG_ERROR, "Level name BOGUS not found")]) :=
  ((C9_unknown_name_bounded_error "bogus" (by decide)).1).trans (by decide)

/-- C10: in the zero-initialized startup state the threshold is
LOG_DEBUG (0), not the lowest level LOG_TRACE (-1): a TRACE emission in
the initial state produces no output on any sink, while every emission at
DEBUG or above produces console output (quiet is initially false) and no
file output (no file handle installed). -/
theorem C10_initial_threshold_is_debug (tshort tlong : String)
    (file : String) (line : Int) (msg : String) (level : Int) :
    initial_L.level = LOG_DEBUG ∧
    ¬ initial_L.level = LOG_TRACE ∧
    (log_log tshort tlong initial_L LOG_TRACE file line msg).2 =
      { lockCalls := [], console := none, toFile := none } ∧
    (LOG_DEBUG ≤ level →
      (log_log tshort tlong initial_L level file line msg).2.console.isSome = true ∧
      (log_log tshort tlong initial_L level file line msg).2.toFile = none) := by
  refine ⟨rfl, by decide, rfl, ?_⟩
  intro h
  have h2 : ¬ level < (0 : Int) := not_lt.mpr h
  simp [log_log, h2, initial_L]

/-- Witness for C10: a WARN emission in the initial state produces
console output. -/
theorem C10_initial_threshold_is_debug_witness :
    LOG_DEBUG ≤ LOG_WARN ∧
    (log_log "t" "T" initial_L LOG_WARN "a.c" (7 : Int) "m").2.console.isSome = true :=
  ⟨by decide,
   ((C10_initial_threshold_is_debug "t" "T" "a.c" 7 "m" LOG_WARN).2.2.2 (by decide)).1⟩

end LogC
